import Mathlib

/-!
Shallow embedding of `src/Ai_ML/hol_ai_ml_streamlit.py` (a single-file
Streamlit conversational-analytics app) and proofs about it.

The Python code is session-state bookkeeping around two HTTP endpoints, a
memoized query executor, and pure render logic.  We embed the session state
(`st.session_state`) as an explicit structure, each state-mutating function as
a state transition, and each render function as a pure function producing a
list of render items.  External effects (the analyst HTTP endpoints, the
warehouse, the summarization completion call) are inputs to the transitions:
one response value per outbound call, matching the single call the code makes
per operation.
-/

namespace ArenaFlow

/-- A content item of a message, as produced by the user or by the API:
a tagged dict with `type` equal to `text`, `suggestions` or `sql`
(`display_message`, lines 211-228).  Confidence is kept opaque (a string key)
since no claim inspects it. -/
inductive ContentItem where
  | text (s : String)
  | suggestions (opts : List String)
  | sql (statement : String) (confidence : Option String)
  deriving DecidableEq, Repr

/-- A warning dict carried by an API payload, whose `message` key is read by
`display_warnings` at line 133. -/
structure Warning where
  message : String
  deriving DecidableEq, Repr

/-- A conversation message dict as built in `process_user_input`
(lines 91-118): role, content list, and for analyst messages a request id.
The `api_response` key is the full payload, kept opaque here (no claim reads
through it beyond what the other fields carry). -/
structure Message where
  role : String
  content : List ContentItem
  request_id : Option String
  deriving DecidableEq, Repr

/-- The success-shaped `message` object of a parsed analyst payload:
`response["message"]["content"]` (line 108). -/
structure PayloadMessage where
  content : List ContentItem
  deriving DecidableEq, Repr

/-- Result of `json.loads(resp["content"])`: the parsed body of an analyst
API response (line 163).  The JSON key `message` holds a nested object on
success and a plain string on failure, so we carry both projections
(`message` for the success shape, `error_message` for the string read at
line 180).  The `warnings` key is optional: `"warnings" in response`
(line 121). -/
structure ParsedContent where
  message : PayloadMessage
  request_id : String
  error_code : String
  error_message : String
  warnings : Option (List Warning)
  deriving DecidableEq, Repr

/-- The raw HTTP response of `_snowflake.send_snow_api_request`: a status and
a body; the body is given already parsed (the code always parses it,
line 163). -/
structure ApiResp where
  status : Nat
  parsed : ParsedContent
  deriving DecidableEq, Repr

/-- A feedback record stored in `st.session_state.form_submitted[request_id]`:
the dict built at line 413, whose single key `error` holds the submission
outcome. -/
structure FeedbackRecord where
  error : Option String
  deriving DecidableEq, Repr

/-- The state `st.session_state`: the session-scoped mutable state the app
reads and writes (initialized at lines 33-38, plus the
`fire_API_error_notify` flag set at line 119).  `form_submitted` is a Python
dict keyed by request id, embedded as an association list where an update
prepends. -/
structure SessionState where
  messages : List Message
  active_suggestion : Option String
  warnings : List Warning
  form_submitted : List (String × FeedbackRecord)
  fire_API_error_notify : Bool
  deriving DecidableEq, Repr

/-- Python dict lookup on the association-list embedding: the most recent
assignment wins. -/
def dictGet (d : List (String × FeedbackRecord)) (k : String) :
    Option FeedbackRecord :=
  match d with
  | [] => none
  | (k2, v) :: rest => if k2 = k then some v else dictGet rest k

/-- Python dict assignment `d[k] = v` on the association-list embedding. -/
def dictSet (d : List (String × FeedbackRecord)) (k : String)
    (v : FeedbackRecord) : List (String × FeedbackRecord) :=
  (k, v) :: d

/-- Embeds `reset_session_state` (lines 33-38): clears messages, active
suggestion, warnings and the feedback map.  Other keys (such as the one-shot
error-notify flag) are untouched. -/
def reset_session_state (st : SessionState) : SessionState :=
  { st with
    messages := []
    active_suggestion := none
    warnings := []
    form_submitted := [] }

/-- The multi-line f-string error message crafted by `get_analyst_response`
(lines 171-182), embedding response code, request id, error code and error
message between the literal fragments of the template. -/
def analystErrorMsg (status : Nat) (request_id error_code message : String) :
    String :=
  "\n🚨 An Analyst API error has occurred 🚨\n\n* response code: `"
    ++ toString status
    ++ "`\n* request-id: `"
    ++ request_id
    ++ "`\n* error code: `"
    ++ error_code
    ++ "`\n\nMessage:\n```\n"
    ++ message
    ++ "\n```\n        "

/-- Embeds `get_analyst_response` (lines 135-183): sends the message history
in the request body (the response to the single POST call is the input
`resp`), parses the body, and returns `(parsed_content, None)` when
`resp["status"] < 400`, otherwise `(parsed_content, error_msg)` with the
crafted message.  The `messages` argument only shapes the request body, so
the embedding threads it but the result is determined by `resp`. -/
def get_analyst_response (_messages : List Message) (resp : ApiResp) :
    ParsedContent × Option String :=
  if resp.status < 400 then
    (resp.parsed, none)
  else
    (resp.parsed,
      some (analystErrorMsg resp.status resp.parsed.request_id
        resp.parsed.error_code resp.parsed.error_message))

/-- Embeds `process_user_input` (lines 80-125): clears warnings, appends the
user message, calls `get_analyst_response` (the HTTP response is the input
`resp`), builds the analyst message from the payload content or from the
synthesized error text, sets the one-shot error flag on failure, replaces
warnings when the payload carries some, and appends the analyst message. -/
def process_user_input (st : SessionState) (prompt : String) (resp : ApiResp) :
    SessionState :=
  let st1 := { st with warnings := [] }
  let new_user_message : Message :=
    { role := "user", content := [ContentItem.text prompt], request_id := none }
  let st2 := { st1 with messages := st1.messages ++ [new_user_message] }
  let (response, error_msg) := get_analyst_response st2.messages resp
  let analyst_message : Message :=
    match error_msg with
    | none =>
        { role := "analyst"
          content := response.message.content
          request_id := some response.request_id }
    | some e =>
        { role := "analyst"
          content := [ContentItem.text e]
          request_id := some response.request_id }
  let st3 :=
    match error_msg with
    | none => st2
    | some _ => { st2 with fire_API_error_notify := true }
  let st4 :=
    match response.warnings with
    | some w => { st3 with warnings := w }
    | none => st3
  { st4 with messages := st4.messages ++ [analyst_message] }

/-- Embeds `display_warnings` (lines 127-133): renders one warning box per
entry of `st.session_state.warnings`, in order. -/
def display_warnings (st : SessionState) : List String :=
  st.warnings.map Warning.message

/-- The indented multi-line f-string error message crafted by
`submit_feedback` (lines 446-457); same fields as the analyst one but with
the literal indentation of that template. -/
def feedbackErrorMsg (status : Nat) (request_id error_code message : String) :
    String :=
  "\n        🚨 An Analyst API error has occurred 🚨\n        \n        * response code: `"
    ++ toString status
    ++ "`\n        * request-id: `"
    ++ request_id
    ++ "`\n        * error code: `"
    ++ error_code
    ++ "`\n        \n        Message:\n        ```\n        "
    ++ message
    ++ "\n        ```\n        "

/-- Embeds `submit_feedback` (lines 424-458): posts the feedback body (the
response to the call is the input `resp`), returns `None` on status exactly
200, otherwise the crafted error message. -/
def submit_feedback (_request_id : String) (_positive : Bool)
    (_feedback_message : String) (resp : ApiResp) : Option String :=
  if resp.status = 200 then
    none
  else
    some (feedbackErrorMsg resp.status resp.parsed.request_id
      resp.parsed.error_code resp.parsed.error_message)

/-- What the feedback popover shows for a request id
(`display_feedback_section`, lines 396-422): the submission form (with its
computed `disabled` flag), the success confirmation, or the stored error
text. -/
inductive FeedbackView where
  | form (submit_disabled : Bool)
  | success
  | errorText (e : String)
  deriving DecidableEq, Repr

/-- The render branch of `display_feedback_section` (lines 396-422): with no
record for the request id it offers the form (whose `disabled` flag, line
404, rechecks membership and so is false there); with a record whose stored
error is `None` it shows the success confirmation; otherwise the stored
error text. -/
def display_feedback_section (st : SessionState) (request_id : String) :
    FeedbackView :=
  match dictGet st.form_submitted request_id with
  | none =>
      FeedbackView.form
        (decide (dictGet st.form_submitted request_id ≠ none))
  | some r =>
      match r.error with
      | none => FeedbackView.success
      | some e => FeedbackView.errorText e

/-- The submit branch of `display_feedback_section` (lines 411-415): when
the form is submitted, `submit_feedback` runs (its HTTP response is the
input `resp`) and the outcome is stored in `form_submitted[request_id]`. -/
def feedback_submit_step (st : SessionState) (request_id : String)
    (positive : Bool) (feedback_message : String) (resp : ApiResp) :
    SessionState :=
  { st with
    form_submitted :=
      dictSet st.form_submitted request_id
        { error := submit_feedback request_id positive feedback_message resp } }

/-- Outcome of one warehouse round-trip for a query, as produced by the body
of `get_query_exec_result` (lines 246-251): either a data frame or the
stringified `SnowparkSQLException`.  A data frame is embedded as its column
names and its rows of cells. -/
structure Table where
  columns : List String
  rows : List (List String)
  deriving DecidableEq, Repr

/-- Embeds `df.empty` of pandas: true when either axis has length 0. -/
def Table.isEmpty (t : Table) : Bool :=
  t.rows.isEmpty || t.columns.isEmpty

/-- The `(df, error)` pair returned by `get_query_exec_result`. -/
abbrev QueryResult := Option Table × Option String

/-- The `@st.cache_data` memoization cache of `get_query_exec_result`
(line 235): keyed by the exact argument string. -/
abbrev QueryCache := List (String × QueryResult)

/-- Lookup in the query cache by exact SQL text. -/
def QueryCache.find (c : QueryCache) (q : String) : Option QueryResult :=
  match c with
  | [] => none
  | (k, v) :: rest => if k = q then some v else QueryCache.find rest q

/-- Embeds `get_query_exec_result` (lines 235-251) under its
`@st.cache_data` decorator: on a cache hit the stored pair is returned with
no warehouse round-trip; on a miss the body runs once against the warehouse
(`wh`, the external `session.sql(query).to_pandas()` with its try/except
already folded into a total outcome) and the pair is stored.  The `Nat`
counts warehouse round-trips made by this invocation. -/
def get_query_exec_result (wh : String → QueryResult) (c : QueryCache)
    (query : String) : QueryResult × QueryCache × Nat :=
  match QueryCache.find c query with
  | some r => (r, c, 0)
  | none => (wh query, (query, wh query) :: c, 1)

/-- Runs a sequence of queries through `get_query_exec_result`, threading
the cache; returns the final cache and the total number of warehouse
round-trips. -/
def runQueries (wh : String → QueryResult) :
    List String → QueryCache → QueryCache × Nat
  | [], c => (c, 0)
  | q :: qs, c =>
      let (_, c2, n) := get_query_exec_result wh c q
      let (c3, m) := runQueries wh qs c2
      (c3, n + m)

/-- The JSON under a choice of the completion response:
`response_json["choices"][i]`, whose `messages` key may be absent
(line 333). -/
structure ChoiceJson where
  messages : Option String
  deriving DecidableEq, Repr

/-- Result of `json.loads(result.iloc[0]["RESPONSE"])` for the summarization
call (line 332): the `choices` key may be absent. -/
structure CompletionResponseJson where
  choices : Option (List ChoiceJson)
  deriving DecidableEq, Repr

/-- The data frame returned by the Cortex Complete query (lines 324-327):
whether it is empty, whether it has a `RESPONSE` column, and the parsed JSON
of its first `RESPONSE` cell. -/
structure CompletionDf where
  isEmpty : Bool
  hasResponseColumn : Bool
  response0 : CompletionResponseJson
  deriving DecidableEq, Repr

/-- Outcome of the external summarization round-trip inside the try block of
`display_sql_query`: either the completion query produced a data frame whose
first cell parsed as JSON, or some step of the call raised (network error,
JSON parse error, ...), carrying the exception text. -/
inductive CompletionOutcome where
  | ok (res : CompletionDf)
  | exn (e : String)
  deriving DecidableEq, Repr

/-- The summarization step of `display_sql_query` (lines 294-335): checks
the result data frame is non-empty and has a `RESPONSE` column (line 329,
else `ValueError("No summary returned from Cortex Complete")`), then that
the parsed JSON has a non-empty `choices` with a `messages` key in its first
element (line 333, else `ValueError("Invalid response format from Cortex
Complete")`), and extracts the first choice.  A raised exception is the
error side. -/
def summarizeStep (comp : CompletionOutcome) : Except String String :=
  match comp with
  | CompletionOutcome.exn e => Except.error e
  | CompletionOutcome.ok res =>
      if res.isEmpty || !res.hasResponseColumn then
        Except.error "No summary returned from Cortex Complete"
      else
        match res.response0.choices with
        | none => Except.error "Invalid response format from Cortex Complete"
        | some [] => Except.error "Invalid response format from Cortex Complete"
        | some (c :: _) =>
            match c.messages with
            | none => Except.error "Invalid response format from Cortex Complete"
            | some s => Except.ok s

/-- What the chart tab shows (`display_charts_tab`, lines 364-394): either
the two axis selectors plus the chart-type selector and the drawn chart, or
the columns-required notice. -/
inductive ChartsView where
  | chart (x_col y_col : String) (chart_type : String)
  | needColumns
  deriving DecidableEq, Repr

/-- Embeds `display_charts_tab` (lines 364-394): with at least 2 columns it
renders the X/Y/type selectors (the selections, made by the user or
defaulted by the widget, are the inputs `x_col`, `y_col`, `chart_type`) and
draws the chart; otherwise it writes the notice text and produces no
selector state. -/
def display_charts_tab (df : Table) (x_col y_col chart_type : String) :
    ChartsView :=
  if df.columns.length ≥ 2 then
    ChartsView.chart x_col y_col chart_type
  else
    ChartsView.needColumns

/-- One rendered element of the SQL-results section produced by
`display_sql_query` (lines 276-362), in render order. -/
inductive RenderItem where
  | summaryHeader
  | summaryText (s : String)
  | warningMsg (s : String)
  | sqlPanel (sql : String)
  | resultsError (err : Option String)
  | resultsEmptyNote
  | dataTab (t : Table)
  | chartTab (t : Table)
  | feedbackSection (request_id : String)
  deriving DecidableEq, Repr

/-- Embeds `display_sql_query` (lines 276-362) as the list of items it
renders.  `execResult` is the `(df, err_msg)` pair from
`get_query_exec_result`; `comp` is the outcome of the summarization
round-trip (consulted only when the code reaches the try block, i.e. for a
successful non-empty frame).  Summary or degradation warning first (lines
293-339), then the SQL expander (line 342), then the results expander:
error text, the no-data note, or the data and chart tabs (lines 347-359),
and the feedback section when `request_id` is truthy (line 361). -/
def display_sql_query (execResult : Option Table × Option String)
    (comp : CompletionOutcome) (sql : String) (request_id : Option String) :
    List RenderItem :=
  let df := execResult.1
  let err_msg := execResult.2
  let summaryItems :=
    match df with
    | some t =>
        if !t.isEmpty then
          match summarizeStep comp with
          | Except.ok s => [RenderItem.summaryHeader, RenderItem.summaryText s]
          | Except.error e =>
              [RenderItem.warningMsg ("Could not generate summary: " ++ e)]
        else []
    | none => []
  let resultItems :=
    match df with
    | none => [RenderItem.resultsError err_msg]
    | some t =>
        if t.isEmpty then
          [RenderItem.resultsEmptyNote]
        else
          [RenderItem.dataTab t, RenderItem.chartTab t]
  let feedbackItems :=
    match request_id with
    | some rid => if rid ≠ "" then [RenderItem.feedbackSection rid] else []
    | none => []
  summaryItems ++ [RenderItem.sqlPanel sql] ++ resultItems ++ feedbackItems

/-- One render pass of `main` (lines 21-31) restricted to the state
transition it performs.  When the message history is empty, line 27 submits
the fixed prompt; `process_user_input` ends in `st.rerun()` (line 125),
which aborts the pass, so `handle_user_inputs` does not run then.
Otherwise `handle_user_inputs` (lines 63-73) processes the chat input when
present, else a pending suggestion (cleared before processing), else leaves
the state unchanged. -/
def main_step (st : SessionState) (resp : ApiResp)
    (user_input : Option String) : SessionState :=
  if st.messages.length = 0 then
    process_user_input st "What questions can I ask?" resp
  else
    match user_input with
    | some s => process_user_input st s resp
    | none =>
        match st.active_suggestion with
        | some suggestion =>
            process_user_input { st with active_suggestion := none }
              suggestion resp
        | none => st

/-- Literal containment: `sub` occurs inside `s`. -/
def containsStr (s sub : String) : Prop :=
  ∃ pre post : String, s = pre ++ sub ++ post

/-- The list of SQL texts a cache holds entries for. -/
def cacheKeys (c : QueryCache) : List String :=
  c.map Prod.fst

/-- A concrete error response: status 404, request id `"abc"`, error code
`"E1"`, message `"bad model"`. -/
def sampleErrorResp : ApiResp :=
  { status := 404
    parsed :=
      { message := { content := [] }
        request_id := "abc"
        error_code := "E1"
        error_message := "bad model"
        warnings := none } }

/-- A concrete redirect-status response: status 300 with an ordinary parsed
body. -/
def sampleRedirectResp : ApiResp :=
  { status := 300
    parsed :=
      { message := { content := [ContentItem.text "hello"] }
        request_id := "r1"
        error_code := ""
        error_message := ""
        warnings := none } }

/-- A concrete successful analyst response. -/
def sampleOkResp : ApiResp :=
  { status := 200
    parsed :=
      { message :=
          { content := [ContentItem.text "You can ask about tweets.",
              ContentItem.suggestions ["How many tweets?"]] }
        request_id := "r0"
        error_code := ""
        error_message := ""
        warnings := none } }

/-- A fresh session state, as left by `reset_session_state`. -/
def emptySession : SessionState :=
  { messages := []
    active_suggestion := none
    warnings := []
    form_submitted := []
    fire_API_error_notify := false }

/-- A concrete 2-column, 2-row result table. -/
def sampleTable : Table :=
  { columns := ["A", "B"], rows := [["1", "2"], ["3", "4"]] }

/-- A concrete 1-column table. -/
def oneColTable : Table :=
  { columns := ["A"], rows := [["1"]] }

/-- A concrete 1-column, zero-row result table. -/
def zeroRowTable : Table :=
  { columns := ["A"], rows := [] }

/-- A summarization round-trip that raised. -/
def sampleCompExn : CompletionOutcome :=
  CompletionOutcome.exn "boom"

/-- A summarization round-trip that returned a well-formed completion. -/
def sampleCompOk : CompletionOutcome :=
  CompletionOutcome.ok
    { isEmpty := false
      hasResponseColumn := true
      response0 := { choices := some [{ messages := some "sum" }] } }

/-- The messages of the state after `process_user_input`: the old history,
then the user message, then some analyst message. -/
theorem process_user_input_messages (st : SessionState) (prompt : String)
    (resp : ApiResp) :
    ∃ a : Message, a.role = "analyst" ∧
      (process_user_input st prompt resp).messages =
        st.messages ++
          [{ role := "user", content := [ContentItem.text prompt],
             request_id := none }, a] := by
  unfold process_user_input get_analyst_response
  by_cases h : resp.status < 400 <;>
    cases hw : resp.parsed.warnings <;>
      simp [h, hw]

theorem QueryCache.find_eq_none_iff (c : QueryCache) (q : String) :
    QueryCache.find c q = none ↔ q ∉ cacheKeys c := by
  induction c with
  | nil => simp [QueryCache.find, cacheKeys]
  | cons kv rest ih =>
      obtain ⟨k, v⟩ := kv
      by_cases h : k = q
      · simp [QueryCache.find, cacheKeys, h]
      · simp only [QueryCache.find, if_neg h, cacheKeys, List.map_cons,
          List.mem_cons, ih]
        constructor
        · intro hq hor
          rcases hor with h1 | h2
          · exact h h1.symm
          · exact hq h2
        · intro hq h2
          exact hq (Or.inr h2)

theorem get_query_exec_result_hit (wh : String → QueryResult)
    (c : QueryCache) (q : String) (r : QueryResult)
    (h : QueryCache.find c q = some r) :
    get_query_exec_result wh c q = (r, c, 0) := by
  unfold get_query_exec_result
  rw [h]

theorem get_query_exec_result_miss (wh : String → QueryResult)
    (c : QueryCache) (q : String) (h : QueryCache.find c q = none) :
    get_query_exec_result wh c q = (wh q, (q, wh q) :: c, 1) := by
  unfold get_query_exec_result
  rw [h]

theorem runQueries_cons (wh : String → QueryResult) (q : String)
    (qs : List String) (c : QueryCache) :
    runQueries wh (q :: qs) c =
      ((runQueries wh qs (get_query_exec_result wh c q).2.1).1,
        (get_query_exec_result wh c q).2.2
          + (runQueries wh qs (get_query_exec_result wh c q).2.1).2) :=
  rfl

theorem runQueries_keys_toFinset (wh : String → QueryResult)
    (qs : List String) :
    ∀ c : QueryCache,
      (cacheKeys (runQueries wh qs c).1).toFinset
        = qs.toFinset ∪ (cacheKeys c).toFinset := by
  induction qs with
  | nil => intro c; simp [runQueries]
  | cons q qs ih =>
      intro c
      cases hf : QueryCache.find c q with
      | some r =>
          have hq : q ∈ cacheKeys c := by
            by_contra hq
            rw [← QueryCache.find_eq_none_iff] at hq
            rw [hf] at hq
            exact Option.noConfusion hq
          rw [runQueries_cons, get_query_exec_result_hit wh c q r hf]
          dsimp only
          rw [ih c]
          simp only [List.toFinset_cons]
          rw [Finset.insert_union, Finset.insert_eq_self.mpr
            (Finset.mem_union_right _ (List.mem_toFinset.mpr hq))]
      | none =>
          rw [runQueries_cons, get_query_exec_result_miss wh c q hf]
          dsimp only
          rw [ih ((q, wh q) :: c)]
          simp only [cacheKeys, List.map_cons, List.toFinset_cons]
          rw [Finset.union_insert, Finset.insert_union]

theorem runQueries_calls_card (wh : String → QueryResult) (qs : List String) :
    ∀ c : QueryCache,
      (runQueries wh qs c).2 + (cacheKeys c).toFinset.card
        = (cacheKeys (runQueries wh qs c).1).toFinset.card := by
  induction qs with
  | nil => intro c; simp [runQueries]
  | cons q qs ih =>
      intro c
      cases hf : QueryCache.find c q with
      | some r =>
          rw [runQueries_cons, get_query_exec_result_hit wh c q r hf]
          dsimp only
          simpa using ih c
      | none =>
          have hq : q ∉ cacheKeys c :=
            (QueryCache.find_eq_none_iff c q).mp hf
          rw [runQueries_cons, get_query_exec_result_miss wh c q hf]
          dsimp only
          have hcard : (cacheKeys ((q, wh q) :: c)).toFinset.card
              = (cacheKeys c).toFinset.card + 1 := by
            simp only [cacheKeys, List.map_cons, List.toFinset_cons]
            exact Finset.card_insert_of_not_mem (by simpa [cacheKeys] using hq)
          have hih := ih ((q, wh q) :: c)
          rw [hcard] at hih
          omega

/-- C1: processing one user turn appends exactly two messages, first a user
message then an analyst message; the prior history is preserved unchanged as
a prefix (no interior removal or reordering) so the length never decreases;
an explicit reset sets the history length to 0. -/
theorem claim_turn_appends_two_messages (st : SessionState) (prompt : String)
    (resp : ApiResp) :
    ((process_user_input st prompt resp).messages.length
        = st.messages.length + 2
      ∧ (process_user_input st prompt resp).messages.take st.messages.length
          = st.messages
      ∧ ((process_user_input st prompt resp).messages[st.messages.length]?).map
            Message.role = some "user"
      ∧ ((process_user_input st prompt resp).messages[st.messages.length + 1]?).map
            Message.role = some "analyst")
    ∧ ∀ st2 : SessionState, (reset_session_state st2).messages.length = 0 := by
  obtain ⟨a, ha, hmsgs⟩ := process_user_input_messages st prompt resp
  refine ⟨⟨?_, ?_, ?_, ?_⟩, fun st2 => rfl⟩
  · simp [hmsgs]
  · simp [hmsgs]
  · rw [hmsgs, List.getElem?_append_right (Nat.le_refl _)]
    simp
  · rw [hmsgs, List.getElem?_append_right (Nat.le_succ_of_le (Nat.le_refl _))]
    simp [ha]

/-- C2: for every analyst-message response with an error status (≥ 400)
whose parsed body carries `request_id`, `error_code` and `message`, the
synthesized analyst error message literally contains all three strings. -/
theorem claim_error_msg_embeds_fields (messages : List Message)
    (resp : ApiResp) (h : 400 ≤ resp.status) :
    ∃ e : String,
      (get_analyst_response messages resp).2 = some e
      ∧ containsStr e resp.parsed.request_id
      ∧ containsStr e resp.parsed.error_code
      ∧ containsStr e resp.parsed.error_message := by
  refine ⟨analystErrorMsg resp.status resp.parsed.request_id
      resp.parsed.error_code resp.parsed.error_message, ?_, ?_, ?_, ?_⟩
  · simp [get_analyst_response, Nat.not_lt.mpr h]
  · refine ⟨"\n🚨 An Analyst API error has occurred 🚨\n\n* response code: `"
        ++ toString resp.status ++ "`\n* request-id: `",
      "`\n* error code: `" ++ resp.parsed.error_code
        ++ "`\n\nMessage:\n```\n" ++ resp.parsed.error_message
        ++ "\n```\n        ", ?_⟩
    simp [analystErrorMsg, String.append_assoc]
  · refine ⟨"\n🚨 An Analyst API error has occurred 🚨\n\n* response code: `"
        ++ toString resp.status ++ "`\n* request-id: `"
        ++ resp.parsed.request_id ++ "`\n* error code: `",
      "`\n\nMessage:\n```\n" ++ resp.parsed.error_message
        ++ "\n```\n        ", ?_⟩
    simp [analystErrorMsg, String.append_assoc]
  · refine ⟨"\n🚨 An Analyst API error has occurred 🚨\n\n* response code: `"
        ++ toString resp.status ++ "`\n* request-id: `"
        ++ resp.parsed.request_id ++ "`\n* error code: `"
        ++ resp.parsed.error_code ++ "`\n\nMessage:\n```\n",
      "\n```\n        ", ?_⟩
    simp [analystErrorMsg, String.append_assoc]

/-- Witness for C2 at the concrete envelope named by the spec (status 404,
request id abc, error code E1, message bad model). -/
theorem claim_error_msg_embeds_fields_witness :
    ∃ e : String,
      (get_analyst_response [] sampleErrorResp).2 = some e
      ∧ containsStr e sampleErrorResp.parsed.request_id
      ∧ containsStr e sampleErrorResp.parsed.error_code
      ∧ containsStr e sampleErrorResp.parsed.error_message :=
  claim_error_msg_embeds_fields [] sampleErrorResp (by decide)

/-- C3 counterexample: status 300 is not a 2xx status, yet the analyst
message endpoint treats it as success (`resp["status"] < 400`, line 166):
no error is surfaced. -/
theorem claim_non2xx_error_counterexample :
    (sampleRedirectResp.status < 200 ∨ 300 ≤ sampleRedirectResp.status)
    ∧ (get_analyst_response [] sampleRedirectResp).2 = none :=
  ⟨Or.inr (by decide), rfl⟩

/-- C3 amended: the analyst message endpoint surfaces a formatted error
exactly for statuses ≥ 400 (so non-2xx statuses below 400 are treated as
success), while the feedback endpoint surfaces a stored error string exactly
for statuses other than 200. -/
theorem claim_error_surfaces_amended (messages : List Message)
    (resp fresp : ApiResp) (rid : String) (positive : Bool) (fmsg : String) :
    ((get_analyst_response messages resp).2 ≠ none ↔ 400 ≤ resp.status)
    ∧ (submit_feedback rid positive fmsg fresp ≠ none ↔ fresp.status ≠ 200) := by
  constructor
  · unfold get_analyst_response
    by_cases h : resp.status < 400
    · simp only [if_pos h]
      simp
      omega
    · simp only [if_neg h]
      simp
      omega
  · unfold submit_feedback
    by_cases h : fresp.status = 200 <;> simp [h]

/-- C4: the warning set is cleared at the start of the turn and, after the
turn, equals the `warnings` array of the payload when present and is empty
otherwise — full replacement, never accumulation, so warnings of turn N are
gone once turn N+1 begins. -/
theorem claim_warnings_replaced_each_turn (st : SessionState) (prompt : String)
    (resp : ApiResp) :
    (process_user_input st prompt resp).warnings
      = resp.parsed.warnings.getD [] := by
  unfold process_user_input get_analyst_response
  by_cases h : resp.status < 400 <;>
    cases hw : resp.parsed.warnings <;>
      simp [h, hw]

/-- C5: after the first feedback submission attempt for a request id, a
`FeedbackRecord` storing the outcome of that attempt exists, the form is no
longer offered, and what is displayed is the success confirmation when the
stored error is `None` and the stored error text otherwise — regardless of
whether the attempt succeeded. -/
theorem claim_feedback_one_shot (st : SessionState) (rid : String)
    (positive : Bool) (fmsg : String) (resp : ApiResp) :
    dictGet (feedback_submit_step st rid positive fmsg resp).form_submitted rid
      = some { error := submit_feedback rid positive fmsg resp }
    ∧ (∀ b, display_feedback_section (feedback_submit_step st rid positive fmsg resp)
          rid ≠ FeedbackView.form b)
    ∧ display_feedback_section (feedback_submit_step st rid positive fmsg resp) rid
        = (match submit_feedback rid positive fmsg resp with
           | none => FeedbackView.success
           | some e => FeedbackView.errorText e) := by
  refine ⟨?_, ?_, ?_⟩ <;>
    cases hs : submit_feedback rid positive fmsg resp <;>
      simp [feedback_submit_step, display_feedback_section, dictSet, dictGet, hs]

/-- C6: query execution is memoized by exact SQL text — re-executing the
same SQL string returns the same cached `(table, error)` pair with no
further warehouse round-trip and an unchanged cache, and running any
sequence of queries from a fresh session makes exactly one warehouse
round-trip per distinct query text. -/
theorem claim_query_memoized (wh : String → QueryResult) (c : QueryCache)
    (q : String) (qs : List String) :
    (get_query_exec_result wh (get_query_exec_result wh c q).2.1 q
      = ((get_query_exec_result wh c q).1,
          (get_query_exec_result wh c q).2.1, 0))
    ∧ (runQueries wh qs []).2 = qs.toFinset.card := by
  constructor
  · unfold get_query_exec_result
    cases hf : QueryCache.find c q with
    | some r => simp [hf]
    | none => simp [QueryCache.find]
  · have h1 := runQueries_calls_card wh qs []
    have h2 := runQueries_keys_toFinset wh qs []
    simp only [cacheKeys, List.map_nil, List.toFinset_nil, Finset.card_empty,
      Nat.add_zero, Finset.union_empty] at h1 h2
    rw [h1, h2]

/-- C7: for a successful non-empty query result, a failing summarization
step degrades to a non-fatal warning with no summary text, and the SQL panel
plus the data and chart tabs are rendered whatever the summarization
outcome. -/
theorem claim_summary_failure_degrades (df : Table) (err : Option String)
    (comp : CompletionOutcome) (sql : String) (rid : Option String)
    (h : df.isEmpty = false) :
    (RenderItem.sqlPanel sql ∈ display_sql_query (some df, err) comp sql rid
      ∧ RenderItem.dataTab df ∈ display_sql_query (some df, err) comp sql rid
      ∧ RenderItem.chartTab df ∈ display_sql_query (some df, err) comp sql rid)
    ∧ ∀ e, summarizeStep comp = Except.error e →
        RenderItem.warningMsg ("Could not generate summary: " ++ e)
            ∈ display_sql_query (some df, err) comp sql rid
          ∧ ∀ s, RenderItem.summaryText s
              ∉ display_sql_query (some df, err) comp sql rid := by
  unfold display_sql_query
  cases hs : summarizeStep comp with
  | ok s =>
      refine ⟨?_, fun e he => Except.noConfusion he⟩
      cases rid with
      | none => simp [h]
      | some r =>
          by_cases hr : r = "" <;> simp [h, hr]
  | error e0 =>
      constructor
      · cases rid with
        | none => simp [h]
        | some r =>
            by_cases hr : r = "" <;> simp [h, hr]
      · intro e he
        have he0 : e0 = e := (Except.error.injEq _ _).mp he
        subst he0
        cases rid with
        | none => simp [h]
        | some r =>
            by_cases hr : r = "" <;> simp [h, hr]

/-- Witness for C7 at a concrete non-empty table and a raising
summarization call. -/
theorem claim_summary_failure_degrades_witness :
    RenderItem.dataTab sampleTable
        ∈ display_sql_query (some sampleTable, none) sampleCompExn
            "SELECT A, B FROM T" (some "r1")
    ∧ RenderItem.warningMsg ("Could not generate summary: " ++ "boom")
        ∈ display_sql_query (some sampleTable, none) sampleCompExn
            "SELECT A, B FROM T" (some "r1") :=
  ⟨(claim_summary_failure_degrades sampleTable none sampleCompExn
      "SELECT A, B FROM T" (some "r1") (by decide)).1.2.1,
    ((claim_summary_failure_degrades sampleTable none sampleCompExn
      "SELECT A, B FROM T" (some "r1") (by decide)).2 "boom" rfl).1⟩

/-- C8: with fewer than 2 columns the chart tab shows only the
columns-required notice (no axis or chart-type selector state); with 2 or
more columns it renders the selectors and the chart. -/
theorem claim_charts_need_two_columns (df : Table)
    (x_col y_col chart_type : String) :
    (df.columns.length < 2 →
      display_charts_tab df x_col y_col chart_type = ChartsView.needColumns)
    ∧ (2 ≤ df.columns.length →
      display_charts_tab df x_col y_col chart_type
        = ChartsView.chart x_col y_col chart_type) := by
  unfold display_charts_tab
  constructor <;> intro h
  · rw [if_neg (by omega)]
  · rw [if_pos h]

/-- Witness for C8 at a 1-column and a 2-column table. -/
theorem claim_charts_need_two_columns_witness :
    display_charts_tab oneColTable "A" "B" "Line Chart 📈"
      = ChartsView.needColumns
    ∧ display_charts_tab sampleTable "A" "B" "Line Chart 📈"
      = ChartsView.chart "A" "B" "Line Chart 📈" :=
  ⟨(claim_charts_need_two_columns oneColTable "A" "B" "Line Chart 📈").1
      (by decide),
    (claim_charts_need_two_columns sampleTable "A" "B" "Line Chart 📈").2
      (by decide)⟩

/-- C9: a render pass on an empty message history submits the fixed prompt
of line 27 before handling any user input, so afterwards the history holds
exactly the two messages of that automatic turn, the first being the fixed
user message. -/
theorem claim_auto_first_prompt (st : SessionState) (resp : ApiResp)
    (user_input : Option String) (h : st.messages = []) :
    main_step st resp user_input
        = process_user_input st "What questions can I ask?" resp
    ∧ (main_step st resp user_input).messages.length = 2
    ∧ ((main_step st resp user_input).messages.head?).map
          (fun m => (m.role, m.content))
        = some ("user", [ContentItem.text "What questions can I ask?"]) := by
  have h0 : st.messages.length = 0 := by rw [h]; rfl
  obtain ⟨a, _, hmsgs⟩ :=
    process_user_input_messages st "What questions can I ask?" resp
  unfold main_step
  rw [if_pos h0]
  refine ⟨rfl, ?_, ?_⟩
  · rw [hmsgs, h]
    rfl
  · rw [hmsgs, h]
    rfl

/-- Witness for C9 on a fresh session with no user input at all. -/
theorem claim_auto_first_prompt_witness :
    main_step emptySession sampleOkResp none
        = process_user_input emptySession "What questions can I ask?"
            sampleOkResp
    ∧ (main_step emptySession sampleOkResp none).messages.length = 2
    ∧ ((main_step emptySession sampleOkResp none).messages.head?).map
          (fun m => (m.role, m.content))
        = some ("user", [ContentItem.text "What questions can I ask?"]) :=
  claim_auto_first_prompt emptySession sampleOkResp none rfl

/-- C10: a successful query with zero rows renders the no-data note without
data or chart tabs, emits no summary and no warning, and the render output
does not depend on the summarization input at all (no summarization call is
consulted). -/
theorem claim_zero_rows_skips_summary (df : Table) (err : Option String)
    (comp comp2 : CompletionOutcome) (sql : String) (rid : Option String)
    (h : df.rows = []) :
    display_sql_query (some df, err) comp sql rid
        = display_sql_query (some df, err) comp2 sql rid
    ∧ RenderItem.resultsEmptyNote ∈ display_sql_query (some df, err) comp sql rid
    ∧ (∀ t, RenderItem.dataTab t ∉ display_sql_query (some df, err) comp sql rid)
    ∧ (∀ t, RenderItem.chartTab t ∉ display_sql_query (some df, err) comp sql rid)
    ∧ (∀ s, RenderItem.warningMsg s ∉ display_sql_query (some df, err) comp sql rid)
    ∧ (∀ s, RenderItem.summaryText s ∉ display_sql_query (some df, err) comp sql rid) := by
  have he : df.isEmpty = true := by simp [Table.isEmpty, h]
  unfold display_sql_query
  cases rid with
  | none => simp [he]
  | some r => by_cases hr : r = "" <;> simp [he, hr]

/-- Witness for C10 at a concrete zero-row table, with two different
summarization inputs. -/
theorem claim_zero_rows_skips_summary_witness :
    display_sql_query (some zeroRowTable, none) sampleCompExn
        "SELECT A FROM T" (some "r1")
      = display_sql_query (some zeroRowTable, none) sampleCompOk
          "SELECT A FROM T" (some "r1")
    ∧ RenderItem.resultsEmptyNote
        ∈ display_sql_query (some zeroRowTable, none) sampleCompExn
            "SELECT A FROM T" (some "r1") :=
  ⟨(claim_zero_rows_skips_summary zeroRowTable none sampleCompExn sampleCompOk
      "SELECT A FROM T" (some "r1") rfl).1,
    (claim_zero_rows_skips_summary zeroRowTable none sampleCompExn sampleCompOk
      "SELECT A FROM T" (some "r1") rfl).2.1⟩

end ArenaFlow
